import Mathlib


/-! # Part 1 — definitions -/

/-!
Verification of the pktwallet configuration resolution engine.

Shallow embedding of `loadConfig` and its helpers from
`pktwallet/config.go` (the layered configuration resolution engine of
the pkt-cash wallet daemon).

Modelling conventions:

* Strings and lists are Lean `String` / `List String`; all definitions are
  executable so that concrete runs evaluate by `rfl` / `decide`.
* OS interaction (environment-variable expansion, home-directory lookup,
  file existence, the INI file contents, DNS lookup of "localhost") is an
  explicit `World` record of pure functions, passed to the resolution
  pipeline; the spec treats these primitives as given utilities.
* Go's lexical `filepath.Clean` / `filepath.Join` (standard library, not
  part of the repository) are modelled semantically below (`goClean`,
  `goJoin`): split on `/`, drop empty and `.` elements, resolve `..`
  lexically, re-render.
* `os.Exit` control flow is modelled with an explicit `Res.exited`
  outcome; fatal configuration errors with `Res.fatal`.
-/

/-! ## Path machinery: Go `filepath.Clean` and `filepath.Join` (POSIX) -/

/-- Split a character list on `/`, keeping empty segments (like
`strings.Split` on "/"). -/
def splitSlashAux : List Char → List Char → List (List Char)
  | [], acc => [acc.reverse]
  | c :: rest, acc =>
      if c = '/' then acc.reverse :: splitSlashAux rest []
      else splitSlashAux rest (c :: acc)

/-- The `/`-separated elements of a path. -/
def pathElems (s : String) : List String :=
  (splitSlashAux s.data []).map List.asString

/-- Render a list of path elements with `/` separators. -/
def joinSlash : List String → String
  | [] => ""
  | [x] => x
  | x :: xs => x ++ "/" ++ joinSlash xs

/-- Whether a string starts with the given character. -/
def strStartsWith (s : String) (c : Char) : Bool :=
  match s.data with
  | [] => false
  | c0 :: _ => c0 = c

/-- One step of Go's `filepath.Clean` element processing, on a reversed
stack of kept elements: empty and `.` elements are dropped; `..` pops the
previous element when possible (at the root of an absolute path a `..` is
dropped; in a relative path leading `..`s are kept). -/
def cleanStep (isAbs : Bool) (st : List String) (e : String) : List String :=
  if e = "" ∨ e = "." then st
  else if e = ".." then
    match st with
    | [] => if isAbs then [] else [".."]
    | top :: rest => if top = ".." then ".." :: st else rest
  else e :: st

/-- Go's `filepath.Clean` for POSIX paths (lexical normalization). -/
def goClean (path : String) : String :=
  if path = "" then "."
  else
    let isAbs := strStartsWith path '/'
    let elems := ((pathElems path).foldl (cleanStep isAbs) []).reverse
    let out := (if isAbs then "/" else "") ++ joinSlash elems
    if out = "" then "." else out

/-- Go's `filepath.Join` for two parts: empty parts are dropped, the rest
joined with `/` and cleaned; all-empty input yields `""` (not cleaned). -/
def goJoin (a b : String) : String :=
  if a = "" then (if b = "" then "" else goClean b)
  else if b = "" then goClean a
  else goClean (a ++ "/" ++ b)

/-- Go's `net.JoinHostPort`: IPv6 hosts (containing `:`) are bracketed. -/
def hasColon (s : String) : Bool := s.data.contains ':'

def joinHostPort (host port : String) : String :=
  if hasColon host then "[" ++ host ++ "]:" ++ port else host ++ ":" ++ port

/-- The host part of Go's `net.SplitHostPort` (split at the last colon);
`none` models the error returned when no colon is present. -/
def splitHostPortHost (s : String) : Option String :=
  let r := s.data.reverse
  if r.contains ':' then
    some (List.asString (r.dropWhile (fun c => ¬ c = ':')).tail.reverse)
  else none

/-! ## Outcomes

`Res α` is the result of a (partial) resolution step: success, a fatal
configuration error (the function returns a non-nil error), or process
termination via `os.Exit` (modelled, not performed). -/

/-- A Go `error` as observed by the config loader: the only thing the
source inspects is whether it is an `*os.PathError` (file absent). -/
structure GoErr where
  isPathError : Bool
deriving DecidableEq

/-- Fatal error outcomes of `loadConfig` (the `return nil, nil, err` paths). -/
inductive Fatal where
  /-- config.go:271-276 — reading the sibling pktd.conf failed; the code
  inspects the stale pre-parse error `errr` (nil here) instead of the
  actual read error, so this branch is taken for every read failure and
  returns `er.E(errr)`. -/
  | seedReadAbort
  /-- config.go:283-288 — non-PathError failure parsing the wallet config file. -/
  | configFileReadError
  /-- config.go:353-360 — more than one network-selection flag. -/
  | multipleNetworks
  /-- config.go:375-379 — invalid debug log level. -/
  | invalidLogLevel
  /-- config.go:401-406 — `--create` and `--createtemp` together. -/
  | createTempAndCreate
  /-- config.go:440-445 — `--create` but the wallet database already exists. -/
  | walletAlreadyExists (dbPath : String)
  /-- config.go:408-412, 457-461, 508-511, 515-519 — `cfgutil.FileExists` failed. -/
  | fileExistsError
  /-- config.go:415-418 — could not create the network directory. -/
  | checkCreateDirError
  /-- config.go:448-451 — the wallet creation wizard failed. -/
  | createWalletError
  /-- config.go:432-435 — the simulation wallet creation wizard failed. -/
  | createSimWalletError
  /-- config.go:462-464, 469-470 — wallet absent, no legacy keystore:
  instructs the user to run with `--create`. -/
  | rejectMissingWallet
  /-- config.go:465-470 — wallet absent but legacy keystore present:
  instructs the user to run with `--create` to import it. -/
  | rejectLegacyWallet
  /-- config.go:489-500 — invalid `--rpcconnect` address. -/
  | invalidRPCConnect
  /-- config.go:536-539 — resolving "localhost" failed. -/
  | lookupHostError
  /-- config.go:549-562 — invalid listener address. -/
  | invalidListener
  /-- config.go:564-580 — an address used by both RPC servers; carries the
  offending address (named in the error message). -/
  | listenerConflict (addr : String)
deriving DecidableEq

/-- `os.Exit` paths inside `loadConfig`. -/
inductive ExitReason where
  /-- config.go:246-249 — `--version` printed, exit 0. -/
  | versionShown
  /-- config.go:383-387 — `--createtemp` without an explicit data directory. -/
  | tempNoDataDir
  /-- config.go:391-395 — `--createtemp` on a network other than simnet. -/
  | tempNotSimnet
  /-- config.go:453-454 — permanent wallet created successfully, exit 0. -/
  | walletCreated
deriving DecidableEq

inductive Res (α : Type) where
  | ok (a : α)
  | fatal (e : Fatal)
  | exited (r : ExitReason)
deriving DecidableEq

def Res.bind {α β : Type} : Res α → (α → Res β) → Res β
  | .ok a, f => f a
  | .fatal e, _ => .fatal e
  | .exited r, _ => .exited r

/-! ## Tracked values and the configuration record

`ExplicitString` models `cfgutil.ExplicitString` (repo code not under
`src/`; contract given by the spec's Tracked Value component): a string
value plus a flag recording whether a parse layer explicitly assigned it.
Assigning the `value` field directly (as the Go code does in several
places) does not flip the flag. -/

structure ExplicitString where
  value : String
  explicitlySet : Bool
deriving DecidableEq

/-- Modelled from the spec: `cfgutil.NewExplicitString` creates a tracked
value whose explicit flag is false. -/
def newExplicitString (v : String) : ExplicitString := ⟨v, false⟩

/-- Modelled from the spec: a parse layer assigning a tracked value marks
it explicitly set. -/
def setExplicitString (v : String) : ExplicitString := ⟨v, true⟩

/-- The configuration record (config.go:52-125), restricted to the fields
read or written by the resolution logic modelled here.  Omitted fields
(wallet password, proxy settings, peer/SPV tuning numbers, TLS toggles
other than `clientTLS`, RPC client limits) are carried through
`loadConfig` without participating in any of the modelled logic. -/
structure Config where
  configFile : ExplicitString
  showVersion : Bool
  create : Bool
  createTemp : Bool
  appDataDir : ExplicitString
  wallet : String
  testNet3 : Bool
  pktTestNet : Bool
  btcMainNet : Bool
  pktMainNet : Bool
  simNet : Bool
  noInitialLoad : Bool
  debugLevel : String
  logDir : String
  rpcConnect : String
  caFile : ExplicitString
  clientTLS : Bool
  btcdUsername : String
  btcdPassword : String
  useRPC : Bool
  rpcCert : ExplicitString
  rpcKey : ExplicitString
  legacyRPCListeners : List String
  username : String
  password : String
  oldUsername : String
  oldPassword : String
  experimentalRPCListeners : List String
  dataDir : ExplicitString
deriving DecidableEq

/-! Compiled-in path constants (config.go:33-50).  `btcutil.AppDataDir`
is an OS/home-directory helper outside the repository; it is modelled as
a fixed per-application directory (its concrete value is immaterial to
every claim). -/

def defaultCAFilename : String := "pktd.cert"
def defaultConfigFilename : String := "pktwallet.conf"
def defaultLogLevel : String := "info"
def defaultLogDirname : String := "logs"

/-- Modelled from the spec: `btcutil.AppDataDir(app, false)`, the
platform application-data directory for `app` (external helper). -/
def appDataDirFor (app : String) : String := "/home/user/." ++ app

def pktdDefaultCAFile : String := goJoin (appDataDirFor "pktd") "rpc.cert"
def pktdDefaultConf : String := goJoin (appDataDirFor "pktd") "pktd.conf"
def defaultAppDataDir : String := appDataDirFor "pktwallet"
def defaultConfigFile : String := goJoin defaultAppDataDir defaultConfigFilename
def defaultRPCKeyFile : String := goJoin defaultAppDataDir "rpc.key"
def defaultRPCCertFile : String := goJoin defaultAppDataDir "rpc.cert"
def defaultLogDir : String := goJoin defaultAppDataDir defaultLogDirname

/-- The default configuration (config.go:209-229). -/
def defaultCfg : Config where
  configFile := newExplicitString defaultConfigFile
  showVersion := false
  create := false
  createTemp := false
  appDataDir := newExplicitString defaultAppDataDir
  wallet := "wallet.db"
  testNet3 := false
  pktTestNet := false
  btcMainNet := false
  pktMainNet := false
  simNet := false
  noInitialLoad := false
  debugLevel := defaultLogLevel
  logDir := defaultLogDir
  rpcConnect := ""
  caFile := newExplicitString ""
  clientTLS := false
  btcdUsername := ""
  btcdPassword := ""
  useRPC := false
  rpcCert := newExplicitString defaultRPCCertFile
  rpcKey := newExplicitString defaultRPCKeyFile
  legacyRPCListeners := []
  username := ""
  password := ""
  oldUsername := ""
  oldPassword := ""
  experimentalRPCListeners := []
  dataDir := newExplicitString defaultAppDataDir

/-! ## Option layers

A `go-flags` parse pass (CLI pass or INI file pass) assigns exactly the
options present in its input into the configuration struct, marking
tracked values explicitly set.  `Opts` records, per option, whether the
layer supplies a value. -/

structure Opts where
  configFile : Option String := none
  showVersion : Option Bool := none
  create : Option Bool := none
  createTemp : Option Bool := none
  appDataDir : Option String := none
  wallet : Option String := none
  testNet3 : Option Bool := none
  pktTestNet : Option Bool := none
  btcMainNet : Option Bool := none
  pktMainNet : Option Bool := none
  simNet : Option Bool := none
  noInitialLoad : Option Bool := none
  debugLevel : Option String := none
  logDir : Option String := none
  rpcConnect : Option String := none
  caFile : Option String := none
  clientTLS : Option Bool := none
  btcdUsername : Option String := none
  btcdPassword : Option String := none
  useRPC : Option Bool := none
  rpcCert : Option String := none
  rpcKey : Option String := none
  legacyRPCListeners : Option (List String) := none
  username : Option String := none
  password : Option String := none
  oldUsername : Option String := none
  oldPassword : Option String := none
  experimentalRPCListeners : Option (List String) := none
  dataDir : Option String := none
deriving DecidableEq

/-- The empty layer: a parse pass that assigns no options. -/
def emptyOpts : Opts := {}

def applyES (o : Option String) (e : ExplicitString) : ExplicitString :=
  match o with
  | some v => setExplicitString v
  | none => e

/-- Apply one parse layer over a configuration: every supplied option
overwrites the current value (and marks tracked values explicit). -/
def applyOpts (c : Config) (o : Opts) : Config where
  configFile := applyES o.configFile c.configFile
  showVersion := o.showVersion.getD c.showVersion
  create := o.create.getD c.create
  createTemp := o.createTemp.getD c.createTemp
  appDataDir := applyES o.appDataDir c.appDataDir
  wallet := o.wallet.getD c.wallet
  testNet3 := o.testNet3.getD c.testNet3
  pktTestNet := o.pktTestNet.getD c.pktTestNet
  btcMainNet := o.btcMainNet.getD c.btcMainNet
  pktMainNet := o.pktMainNet.getD c.pktMainNet
  simNet := o.simNet.getD c.simNet
  noInitialLoad := o.noInitialLoad.getD c.noInitialLoad
  debugLevel := o.debugLevel.getD c.debugLevel
  logDir := o.logDir.getD c.logDir
  rpcConnect := o.rpcConnect.getD c.rpcConnect
  caFile := applyES o.caFile c.caFile
  clientTLS := o.clientTLS.getD c.clientTLS
  btcdUsername := o.btcdUsername.getD c.btcdUsername
  btcdPassword := o.btcdPassword.getD c.btcdPassword
  useRPC := o.useRPC.getD c.useRPC
  rpcCert := applyES o.rpcCert c.rpcCert
  rpcKey := applyES o.rpcKey c.rpcKey
  legacyRPCListeners := o.legacyRPCListeners.getD c.legacyRPCListeners
  username := o.username.getD c.username
  password := o.password.getD c.password
  oldUsername := o.oldUsername.getD c.oldUsername
  oldPassword := o.oldPassword.getD c.oldPassword
  experimentalRPCListeners := o.experimentalRPCListeners.getD c.experimentalRPCListeners
  dataDir := applyES o.dataDir c.dataDir

/-! Field-indexed view of the configuration, used to state the layering
law uniformly over every modelled option. -/

inductive CfgField where
  | fConfigFile | fShowVersion | fCreate | fCreateTemp | fAppDataDir
  | fWallet | fTestNet3 | fPktTestNet | fBtcMainNet | fPktMainNet
  | fSimNet | fNoInitialLoad | fDebugLevel | fLogDir | fRPCConnect
  | fCAFile | fClientTLS | fBtcdUsername | fBtcdPassword | fUseRPC
  | fRPCCert | fRPCKey | fLegacyRPCListeners | fUsername | fPassword
  | fOldUsername | fOldPassword | fExperimentalRPCListeners | fDataDir
deriving DecidableEq

inductive Val where
  | s (v : String)
  | b (v : Bool)
  | l (v : List String)
deriving DecidableEq

def getField (c : Config) : CfgField → Val
  | .fConfigFile => .s c.configFile.value
  | .fShowVersion => .b c.showVersion
  | .fCreate => .b c.create
  | .fCreateTemp => .b c.createTemp
  | .fAppDataDir => .s c.appDataDir.value
  | .fWallet => .s c.wallet
  | .fTestNet3 => .b c.testNet3
  | .fPktTestNet => .b c.pktTestNet
  | .fBtcMainNet => .b c.btcMainNet
  | .fPktMainNet => .b c.pktMainNet
  | .fSimNet => .b c.simNet
  | .fNoInitialLoad => .b c.noInitialLoad
  | .fDebugLevel => .s c.debugLevel
  | .fLogDir => .s c.logDir
  | .fRPCConnect => .s c.rpcConnect
  | .fCAFile => .s c.caFile.value
  | .fClientTLS => .b c.clientTLS
  | .fBtcdUsername => .s c.btcdUsername
  | .fBtcdPassword => .s c.btcdPassword
  | .fUseRPC => .b c.useRPC
  | .fRPCCert => .s c.rpcCert.value
  | .fRPCKey => .s c.rpcKey.value
  | .fLegacyRPCListeners => .l c.legacyRPCListeners
  | .fUsername => .s c.username
  | .fPassword => .s c.password
  | .fOldUsername => .s c.oldUsername
  | .fOldPassword => .s c.oldPassword
  | .fExperimentalRPCListeners => .l c.experimentalRPCListeners
  | .fDataDir => .s c.dataDir.value

def optField (o : Opts) : CfgField → Option Val
  | .fConfigFile => o.configFile.map Val.s
  | .fShowVersion => o.showVersion.map Val.b
  | .fCreate => o.create.map Val.b
  | .fCreateTemp => o.createTemp.map Val.b
  | .fAppDataDir => o.appDataDir.map Val.s
  | .fWallet => o.wallet.map Val.s
  | .fTestNet3 => o.testNet3.map Val.b
  | .fPktTestNet => o.pktTestNet.map Val.b
  | .fBtcMainNet => o.btcMainNet.map Val.b
  | .fPktMainNet => o.pktMainNet.map Val.b
  | .fSimNet => o.simNet.map Val.b
  | .fNoInitialLoad => o.noInitialLoad.map Val.b
  | .fDebugLevel => o.debugLevel.map Val.s
  | .fLogDir => o.logDir.map Val.s
  | .fRPCConnect => o.rpcConnect.map Val.s
  | .fCAFile => o.caFile.map Val.s
  | .fClientTLS => o.clientTLS.map Val.b
  | .fBtcdUsername => o.btcdUsername.map Val.s
  | .fBtcdPassword => o.btcdPassword.map Val.s
  | .fUseRPC => o.useRPC.map Val.b
  | .fRPCCert => o.rpcCert.map Val.s
  | .fRPCKey => o.rpcKey.map Val.s
  | .fLegacyRPCListeners => o.legacyRPCListeners.map Val.l
  | .fUsername => o.username.map Val.s
  | .fPassword => o.password.map Val.s
  | .fOldUsername => o.oldUsername.map Val.s
  | .fOldPassword => o.oldPassword.map Val.s
  | .fExperimentalRPCListeners => o.experimentalRPCListeners.map Val.l
  | .fDataDir => o.dataDir.map Val.s

/-! ## The OS/environment oracle -/

/-- The result of `flags.NewIniParser(parser).ParseFile` on a given path:
the set of options the file supplies, or a failure (distinguishing the
`*os.PathError` "file absent" case, config.go:284). -/
inductive IniFileRes where
  | ok (opts : Opts)
  | pathError
  | otherError
deriving DecidableEq

/-- External effects consumed by `loadConfig`, as pure data.  The spec
treats these primitives (environment expansion, home-directory lookup,
filesystem probes, sibling-config reads, DNS) as given utilities. -/
structure World where
  /-- `os.ExpandEnv` (config.go:133). -/
  expandEnv : String → String
  /-- `user.Current()` home directory (config.go:161); `none` = lookup error. -/
  currentUserHome : Option String
  /-- `user.Lookup(name)` home directory (config.go:163); `none` = lookup error. -/
  lookupUserHome : String → Option String
  /-- `pktconfig.ReadUserPass(pktdDefaultConf)` (config.go:271). -/
  readUserPass : Except GoErr (List String)
  /-- INI parse of the wallet config file at a path (config.go:283). -/
  parseIniFile : String → IniFileRes
  /-- `pktconfig.CreateDefaultConfigFile` success (config.go:291). -/
  createDefaultConfigFileOk : String → Bool
  /-- `log.SetLogLevels` success (config.go:375); external logging backend. -/
  setLogLevelsOk : String → Bool
  /-- `cfgutil.FileExists` (config.go:408, 457, 508, 515). -/
  fileExists : String → Except GoErr Bool
  /-- `checkCreateDir` on the network directory (config.go:415). -/
  checkCreateDir : String → Except GoErr Unit
  /-- `createSimulationWallet` wizard (config.go:432). -/
  createSimulationWallet : Except GoErr Unit
  /-- `createWallet` wizard (config.go:448). -/
  createWallet : Except GoErr Unit
  /-- `net.LookupHost("localhost")` (config.go:536). -/
  lookupHostLocalhost : Except GoErr (List String)

/-! ## `cleanAndExpandPath` (config.go:127-174)

Faithful to the non-Windows branch (`runtime.GOOS ≠ "windows"`, so the
separator set is just `/`): expand environment variables, then expand a
leading `~`/`~user` via the user database, falling back to the current
directory when the home directory cannot be resolved. -/

def cleanAndExpandPath (w : World) (path : String) : String :=
  let path := w.expandEnv path
  if ¬ strStartsWith path '~' then goClean path
  else
    let rest := List.asString path.data.tail
    let i := rest.data.takeWhile (fun c => ¬ c = '/')
    let userName := List.asString i
    let rest := List.asString (rest.data.drop i.length)
    let homeDir :=
      match (if userName = "" then w.currentUserHome else w.lookupUserHome userName) with
      | some h => h
      | none => ""
    let homeDir := if homeDir = "" then "." else homeDir
    goJoin homeDir rest

/-- `validLogLevel` (config.go:177-193). -/
def validLogLevel (logLevel : String) : Bool :=
  logLevel = "trace" ∨ logLevel = "debug" ∨ logLevel = "info" ∨
  logLevel = "warn" ∨ logLevel = "error" ∨ logLevel = "critical"

/-! ## Network profiles

`netparams` lives outside `src/`.  Modelled from the spec: an immutable
record per selectable network carrying its name and default RPC
client/server ports (client and server port literals for the three
btcwallet-inherited networks are taken from the option help strings in
config.go:75 and config.go:106; the two pkt-specific profiles use
placeholder ports, immaterial to every claim). -/

structure NetParams where
  name : String
  rpcClientPort : String
  rpcServerPort : String
deriving DecidableEq

def mainNetParams : NetParams := ⟨"mainnet", "8334", "8332"⟩
def testNet3Params : NetParams := ⟨"testnet3", "18334", "18332"⟩
def simNetParams : NetParams := ⟨"simnet", "18556", "18554"⟩
def pktTestNetParams : NetParams := ⟨"pkt.testnet", "64764", "64766"⟩
def pktMainNetParams : NetParams := ⟨"pkt.mainnet", "64765", "64763"⟩

/-- Modelled from the spec: the initial value of the process-wide
`activeNet` variable (declared outside config.go); the option help text
documents mainnet as the default network. -/
def defaultActiveNet : NetParams := pktMainNetParams

/-- Sequential selection of `activeNet` (config.go:333-352): each set
flag overwrites the variable, later checks last. -/
def selectNet (c : Config) : NetParams :=
  let n := defaultActiveNet
  let n := if c.testNet3 then testNet3Params else n
  let n := if c.simNet then simNetParams else n
  let n := if c.pktTestNet then pktTestNetParams else n
  let n := if c.pktMainNet then pktMainNetParams else n
  if c.btcMainNet then mainNetParams else n

/-- `numNets` (config.go:332-352): how many network-selection flags are set. -/
def numNets (c : Config) : Nat :=
  (if c.testNet3 then 1 else 0) + (if c.simNet then 1 else 0) +
  (if c.pktTestNet then 1 else 0) + (if c.pktMainNet then 1 else 0) +
  (if c.btcMainNet then 1 else 0)

/-! ## Paths of the wallet database and legacy keystore -/

/-- Modelled from the spec: `networkDir` (pktwallet code not under
`src/`) — the per-network directory `<network-dir>` under the
application data directory, namespaced by the network name. -/
def networkDir (appData : String) (net : NetParams) : String :=
  goJoin appData net.name

/-- Modelled from the spec: `wallet.WalletDbPath` (wallet package, not
under `src/`) — the wallet database file location
`<network-dir>/<wallet-name>.db`; per the option help string
(config.go:59), a name with a leading `/` is an absolute path and a
simple word `w` means `wallet_w.db`; the default `wallet.db` is used
as-is. -/
def walletDbPath (netDir walletName : String) : String :=
  if strStartsWith walletName '/' then walletName
  else if walletName = "wallet.db" then goJoin netDir walletName
  else goJoin netDir ("wallet_" ++ walletName ++ ".db")

/-- Modelled from the spec: `keystore.Filename` (legacy keystore package,
not under `src/`) — the fixed legacy keystore file name under the
network directory. -/
def keystoreFilename : String := "wallet.bin"

/-! ## Merge phase (config.go:207-305)

Pass 1 parses the CLI into a scratch copy of the defaults; the version
request exits; the config-file path is resolved; the sibling `pktd.conf`
may seed the daemon credentials; the config file layer is merged; pass 2
re-applies the same CLI options over the result. -/

/-- Config-file path discovery (config.go:253-265). -/
def resolveConfigFilePath (w : World) (pre : Config) : String :=
  if pre.configFile.explicitlySet then cleanAndExpandPath w pre.configFile.value
  else
    let appDataDir :=
      if ¬ pre.appDataDir.explicitlySet ∧ pre.dataDir.explicitlySet then
        cleanAndExpandPath w pre.dataDir.value
      else pre.appDataDir.value
    if ¬ appDataDir = defaultAppDataDir then goJoin appDataDir defaultConfigFilename
    else pre.configFile.value

/-- Seeding of the daemon credentials from the sibling `pktd.conf`
(config.go:267-281), acting on the real configuration (still all
defaults at this point).  NOTE the faithful bug: on a read failure the
source inspects `errr` — the pass-1 parse error, necessarily nil on this
path — instead of the read error `err`; a nil error never type-asserts
to `*os.PathError`, so `!ok` holds and the abort branch is taken for
*every* read failure, including a merely absent file, returning
`er.E(errr)`. -/
def seedStage (w : World) (pre : Config) : Res Config :=
  if pre.username ≠ "" ∧ pre.password ≠ "" then .ok defaultCfg
  else
    match w.readUserPass with
    | .error _e => .fatal .seedReadAbort
    | .ok userpass =>
        if 2 ≤ userpass.length then
          .ok { defaultCfg with
                  btcdUsername := userpass.getD 0 "",
                  btcdPassword := userpass.getD 1 "" }
        else .ok defaultCfg

/-- Config-file layer (config.go:283-296): a `*os.PathError` means the
file is absent — it is created from the built-in sample and re-parsed
(the sample sets no options — modelled from the spec — and both the
creation failure and the re-parse result are recorded only as a deferred
warning); any other parse failure is fatal. -/
def fileStage (w : World) (path : String) (c : Config) : Res Config :=
  match w.parseIniFile path with
  | .ok opts => .ok (applyOpts c opts)
  | .otherError => .fatal .configFileReadError
  | .pathError => .ok c

/-- The merge phase: defaults, pass-1 scratch parse, version exit,
sibling seeding, config-file layer, authoritative pass-2 CLI layer
(config.go:209-305). -/
def mergePhase (w : World) (cli : Opts) : Res Config :=
  let pre := applyOpts defaultCfg cli
  if pre.showVersion then .exited .versionShown
  else
    let path := resolveConfigFilePath w pre
    Res.bind (seedStage w pre) fun seeded =>
    Res.bind (fileStage w path seeded) fun afterFile =>
    .ok (applyOpts afterFile cli)

/-! ## Post-merge stages -/

/-- Deprecated `--datadir` alias (config.go:309-315): when only the
deprecated option was explicitly set, its value is copied into
`appDataDir.value` — without marking `appDataDir` explicitly set. -/
def checkDeprecatedDataDir (c : Config) : Config :=
  if c.dataDir.explicitlySet ∧ ¬ c.appDataDir.explicitlySet then
    { c with appDataDir := ⟨c.dataDir.value, c.appDataDir.explicitlySet⟩ }
  else c

/-- Path re-derivation (config.go:317-328): when `appDataDir` was
explicitly set, its value is cleaned/expanded and the RPC key/cert paths
that were not themselves explicitly set are recomputed under it. -/
def rederivePaths (w : World) (c : Config) : Config :=
  if c.appDataDir.explicitlySet then
    let ad := cleanAndExpandPath w c.appDataDir.value
    { c with
        appDataDir := ⟨ad, c.appDataDir.explicitlySet⟩,
        rpcKey :=
          if c.rpcKey.explicitlySet then c.rpcKey
          else ⟨goJoin ad "rpc.key", c.rpcKey.explicitlySet⟩,
        rpcCert :=
          if c.rpcCert.explicitlySet then c.rpcCert
          else ⟨goJoin ad "rpc.cert", c.rpcCert.explicitlySet⟩ }
  else c

/-- Network selection (config.go:330-360): more than one selected
network flag is a fatal configuration error. -/
def networkStage (c : Config) : Res NetParams :=
  if numNets c > 1 then .fatal .multipleNetworks else .ok (selectNet c)

/-- Log directory namespacing (config.go:371-372). -/
def logDirStage (w : World) (net : NetParams) (c : Config) : Config :=
  { c with logDir := goJoin (cleanAndExpandPath w c.logDir) net.name }

/-- Debug log level validation (config.go:375-379). -/
def logLevelStage (w : World) (c : Config) : Res Unit :=
  if w.setLogLevelsOk c.debugLevel then .ok () else .fatal .invalidLogLevel

/-- Simulation-wallet sanity exits (config.go:381-395): `--createtemp`
without an explicit data directory, or on a network other than simnet,
terminates the process via `os.Exit(0)` with a diagnostic. -/
def tempExitChecks (c : Config) : Res Unit :=
  if ¬ (c.appDataDir.explicitlySet ∨ c.dataDir.explicitlySet) ∧ c.createTemp then
    .exited .tempNoDataDir
  else if ¬ c.simNet ∧ c.createTemp then .exited .tempNotSimnet
  else .ok ()

/-- The bootstrap decision of the spec's state machine (§3/§4.8): what
happens to the wallet file.  The reject decisions surface as the fatal
errors `Fatal.rejectMissingWallet` / `Fatal.rejectLegacyWallet`; a
successful permanent creation exits the process. -/
inductive BootstrapDecision where
  | createTemporary
  | loadExisting
  | deferLoad
deriving DecidableEq

/-- Wallet bootstrap (config.go:398-471): mutual-exclusion check, wallet
database existence probe, network directory creation, then the
create/createtemp/load/reject branches. -/
def bootstrapStage (w : World) (net : NetParams) (c : Config) :
    Res BootstrapDecision :=
  let netDir := networkDir c.appDataDir.value net
  let dbPath := walletDbPath netDir c.wallet
  if c.createTemp ∧ c.create then .fatal .createTempAndCreate
  else
    match w.fileExists dbPath with
    | .error _ => .fatal .fileExistsError
    | .ok dbFileExists =>
      match w.checkCreateDir netDir with
      | .error _ => .fatal .checkCreateDirError
      | .ok _ =>
        if c.createTemp then
          if dbFileExists then .ok .loadExisting
          else
            match w.createSimulationWallet with
            | .ok _ => .ok .createTemporary
            | .error _ => .fatal .createSimWalletError
        else if c.create then
          if dbFileExists then .fatal (.walletAlreadyExists dbPath)
          else
            match w.createWallet with
            | .ok _ => .exited .walletCreated
            | .error _ => .fatal .createWalletError
        else if ¬ dbFileExists ∧ ¬ c.noInitialLoad then
          match w.fileExists (goJoin netDir keystoreFilename) with
          | .error _ => .fatal .fileExistsError
          | .ok keystoreExists =>
              if ¬ keystoreExists then .fatal .rejectMissingWallet
              else .fatal .rejectLegacyWallet
        else .ok .deferLoad

/-- `localhostListeners` membership (config.go:473-477). -/
def isLocalhost (h : String) : Bool :=
  h = "localhost" ∨ h = "127.0.0.1" ∨ h = "::1"

/-- Modelled from the spec: `cfgutil.NormalizeAddress` (repo code not
under `src/`) appends the network's default port to an address lacking
one; this model never fails (the fallible signature matches the call
sites). -/
def normalizeAddress (addr port : String) : String :=
  if hasColon addr then addr else addr ++ ":" ++ port

def listHas (a : String) : List String → Bool
  | [] => false
  | b :: rest => a = b ∨ listHas a rest

def dedupAux (seen : List String) : List String → List String
  | [] => []
  | a :: rest =>
      if listHas a seen then dedupAux seen rest
      else a :: dedupAux (a :: seen) rest

/-- Modelled from the spec: `cfgutil.NormalizeAddresses` (repo code not
under `src/`) — default ports applied, duplicates removed (first
occurrence kept). -/
def normalizeAddresses (l : List String) (port : String) : List String :=
  dedupAux [] (l.map (fun a => normalizeAddress a port))

/-- RPC client connection handling (config.go:479-528): with `--userpc`
unset only the neutrino tuning globals are copied (no claim reads them;
the configuration is untouched); with it set, the connect address is
defaulted and normalized and, under `--clienttls` with no explicit CA
file, a CA path is derived. -/
def rpcClientStage (w : World) (net : NetParams) (c : Config) : Res Config :=
  if ¬ c.useRPC then .ok c
  else
    let rc :=
      if c.rpcConnect = "" then joinHostPort "localhost" net.rpcClientPort
      else c.rpcConnect
    let rc := normalizeAddress rc net.rpcClientPort
    match splitHostPortHost rc with
    | none => .fatal .invalidRPCConnect
    | some rpcHost =>
      let c := { c with rpcConnect := rc }
      if c.clientTLS ∧ ¬ c.caFile.explicitlySet then
        let ca := goJoin c.appDataDir.value defaultCAFilename
        let c := { c with caFile := ⟨ca, c.caFile.explicitlySet⟩ }
        match w.fileExists ca with
        | .error _ => .fatal .fileExistsError
        | .ok certExists =>
          if certExists then .ok c
          else if isLocalhost rpcHost then
            match w.fileExists pktdDefaultCAFile with
            | .error _ => .fatal .fileExistsError
            | .ok pktdCertExists =>
                if pktdCertExists then
                  .ok { c with caFile := ⟨pktdDefaultCAFile, c.caFile.explicitlySet⟩ }
                else .ok c
          else .ok c
      else .ok c

/-- Default listener generation and normalization (config.go:530-562):
when neither server has listeners, "localhost" is resolved and the
legacy server bound to each address at the default port; then both lists
are normalized. -/
def listenerStage (w : World) (net : NetParams) (c : Config) : Res Config :=
  let norm := fun (c : Config) =>
    { c with
        legacyRPCListeners :=
          normalizeAddresses c.legacyRPCListeners net.rpcServerPort,
        experimentalRPCListeners :=
          normalizeAddresses c.experimentalRPCListeners net.rpcServerPort }
  if c.experimentalRPCListeners.length = 0 ∧ c.legacyRPCListeners.length = 0 then
    match w.lookupHostLocalhost with
    | .error _ => .fatal .lookupHostError
    | .ok addrs =>
        .ok (norm { c with
          legacyRPCListeners := addrs.map (joinHostPort · net.rpcServerPort) })
  else .ok (norm c)

/-- First experimental listener address already bound by the legacy
server (the `seenAddresses` loop of config.go:566-579). -/
def findShared (legacy : List String) : List String → Option String
  | [] => none
  | a :: rest => if listHas a legacy then some a else findShared legacy rest

/-- Cross-server listener conflict check (config.go:564-580): when both
servers have listeners, an address appearing in both is a fatal error
naming that address. -/
def checkListenerConflict (legacy experimental : List String) : Res Unit :=
  if legacy.length > 0 ∧ experimental.length > 0 then
    match findShared legacy experimental with
    | some addr => .fatal (.listenerConflict addr)
    | none => .ok ()
  else .ok ()

/-- Final path expansion (config.go:582-585). -/
def expandStage (w : World) (c : Config) : Config :=
  { c with
      caFile := ⟨cleanAndExpandPath w c.caFile.value, c.caFile.explicitlySet⟩,
      rpcCert := ⟨cleanAndExpandPath w c.rpcCert.value, c.rpcCert.explicitlySet⟩,
      rpcKey := ⟨cleanAndExpandPath w c.rpcKey.value, c.rpcKey.explicitlySet⟩ }

/-- Credential fallback (config.go:587-603): empty canonical fields fall
back to the legacy aliases, then empty daemon fields fall back to the
resolved client credentials. -/
def credStage (c : Config) : Config :=
  let c := if c.username = "" then { c with username := c.oldUsername } else c
  let c := if c.password = "" then { c with password := c.oldPassword } else c
  let c := if c.btcdUsername = "" then { c with btcdUsername := c.username } else c
  if c.btcdPassword = "" then { c with btcdPassword := c.password } else c

/-- Everything after the merge phase, in source order
(config.go:307-612). -/
def postMerge (w : World) (m : Config) : Res (Config × BootstrapDecision) :=
  let m2 := rederivePaths w (checkDeprecatedDataDir m)
  Res.bind (networkStage m2) fun net =>
  let m3 := logDirStage w net m2
  Res.bind (logLevelStage w m3) fun _ =>
  Res.bind (tempExitChecks m3) fun _ =>
  Res.bind (bootstrapStage w net m3) fun decision =>
  Res.bind (rpcClientStage w net m3) fun m4 =>
  Res.bind (listenerStage w net m4) fun m5 =>
  Res.bind (checkListenerConflict m5.legacyRPCListeners m5.experimentalRPCListeners) fun _ =>
  .ok (credStage (expandStage w m5), decision)

/-- The whole of `loadConfig` (config.go:207-612), as a function of the
parsed command-line layer and the external world. -/
def loadConfigModel (w : World) (cli : Opts) : Res (Config × BootstrapDecision) :=
  Res.bind (mergePhase w cli) (postMerge w)

/-! ## Derived views of the pipeline -/

/-- The configuration entering the network selector: merged options after
the deprecated-alias copy and the path re-derivation. -/
def m2Of (w : World) (m : Config) : Config :=
  rederivePaths w (checkDeprecatedDataDir m)

/-- The merged configuration a successful seed stage hands on. -/
def seededDefaultCfg (w : World) (pre : Config) : Config :=
  if pre.username ≠ "" ∧ pre.password ≠ "" then defaultCfg
  else
    match w.readUserPass with
    | .error _ => defaultCfg
    | .ok userpass =>
        if 2 ≤ userpass.length then
          { defaultCfg with
              btcdUsername := userpass.getD 0 "",
              btcdPassword := userpass.getD 1 "" }
        else defaultCfg

/-! ## Concrete worlds and inputs for witnesses and counterexamples -/

/-- A benign world: identity environment expansion, no home directories,
an empty parsed wallet config file, every probed file present, all
external operations succeeding, and a sibling pktd.conf read yielding no
credentials. -/
def idWorld : World where
  expandEnv := fun s => s
  currentUserHome := none
  lookupUserHome := fun _ => none
  readUserPass := .ok []
  parseIniFile := fun _ => .ok emptyOpts
  createDefaultConfigFileOk := fun _ => true
  setLogLevelsOk := validLogLevel
  fileExists := fun _ => .ok true
  checkCreateDir := fun _ => .ok ()
  createSimulationWallet := .ok ()
  createWallet := .ok ()
  lookupHostLocalhost := .ok ["127.0.0.1"]

/-- Like `idWorld`, but the sibling pktd.conf supplies credentials. -/
def seedWorld : World := { idWorld with readUserPass := .ok ["alice", "pw"] }

/-- The merged (post-pass-2) configuration of a run, defaulting when the
merge fails. -/
def mergedOf (w : World) (cli : Opts) : Config :=
  match mergePhase w cli with
  | .ok m => m
  | _ => defaultCfg

/-- The final configuration of a successful run, defaulting otherwise. -/
def finalCfgOf (w : World) (cli : Opts) : Config :=
  match loadConfigModel w cli with
  | .ok (c, _) => c
  | _ => defaultCfg

/-- The bootstrap decision of a successful run. -/
def finalDecisionOf (w : World) (cli : Opts) : Option BootstrapDecision :=
  match loadConfigModel w cli with
  | .ok (_, d) => some d
  | _ => none

/-- Whether resolution completed successfully. -/
def resolutionOk (w : World) (cli : Opts) : Bool :=
  match loadConfigModel w cli with
  | .ok _ => true
  | _ => false

def mW1 : Config := mergedOf seedWorld emptyOpts

/-- The number of set network flags in the final configuration of a run. -/
def netCountOf (w : World) (cli : Opts) : Option Nat :=
  match loadConfigModel w cli with
  | .ok (c, _) => some (numNets c)
  | _ => none

def cliTwoNets : Opts := { testNet3 := some true, simNet := some true }

def mW2 : Config := mergedOf idWorld cliTwoNets

/-! ## Inputs for claim C4 -/

def cliBothCreate : Opts :=
  { create := some true, createTemp := some true, simNet := some true }

def cliBothWithDir : Opts :=
  { create := some true, createTemp := some true, simNet := some true,
    dataDir := some "/tmp/sim" }

def mW4 : Config := mergedOf idWorld cliBothWithDir

/-! ## Worlds for claim C8 -/

/-- A world whose sibling pktd.conf read fails with a `*os.PathError`
(the file is absent). -/
def pathErrWorld : World := { idWorld with readUserPass := .error ⟨true⟩ }

/-- Whether the sibling pktd.conf read failed with a `*os.PathError`. -/
def readUserPassIsPathError (w : World) : Bool :=
  match w.readUserPass with
  | .error e => e.isPathError
  | .ok _ => false

def cli9 : Opts := { oldUsername := some "bob", password := some "pw" }

def mW9 : Config := mergedOf idWorld cli9

def cfgW9 : Config := finalCfgOf idWorld cli9

def cfgW10 : Config := finalCfgOf idWorld emptyOpts

def mW10 : Config := mergedOf idWorld emptyOpts

/-! ## Bootstrap-stage paths and inputs for claims C5 and C6 -/

/-- The per-network directory computed at config.go:398 for a merged
configuration. -/
def netDirOf (w : World) (m : Config) : String :=
  networkDir (m2Of w m).appDataDir.value (selectNet (m2Of w m))

/-- The wallet database path computed at config.go:399. -/
def dbPathOf (w : World) (m : Config) : String :=
  walletDbPath (netDirOf w m) m.wallet

/-- The legacy keystore path computed at config.go:456. -/
def keystorePathOf (w : World) (m : Config) : String :=
  goJoin (netDirOf w m) keystoreFilename

/-- The bootstrap stage as invoked by the pipeline on a merged
configuration. -/
def bootstrapStageOf (w : World) (m : Config) : Res BootstrapDecision :=
  bootstrapStage w (selectNet (m2Of w m))
    (logDirStage w (selectNet (m2Of w m)) (m2Of w m))

instance {e a : Type} [DecidableEq e] [DecidableEq a] :
    DecidableEq (Except e a) := fun x y =>
  match x, y with
  | .error v1, .error v2 =>
      if h : v1 = v2 then isTrue (by rw [h])
      else isFalse (by intro hc; cases hc; exact h rfl)
  | .ok v1, .ok v2 =>
      if h : v1 = v2 then isTrue (by rw [h])
      else isFalse (by intro hc; cases hc; exact h rfl)
  | .error _, .ok _ => isFalse (by intro hc; cases hc)
  | .ok _, .error _ => isFalse (by intro hc; cases hc)

/-- A world in which no probed file exists. -/
def emptyFsWorld : World := { idWorld with fileExists := fun _ => .ok false }

/-- A world in which only the legacy keystore of the default network
directory exists. -/
def legacyFsWorld : World :=
  { idWorld with
      fileExists := fun p =>
        Except.ok (p = "/home/user/.pktwallet/pkt.mainnet/wallet.bin") }

def cli6 : Opts :=
  { createTemp := some true, simNet := some true, dataDir := some "/tmp/sim" }

/-! ## Worlds and inputs for claim C3 -/

/-- A world with one resolvable user home directory. -/
def tildeWorld : World :=
  { idWorld with lookupUserHome := fun u => if u = "y" then some "/home/y" else none }

def cliTilde : Opts := { appDataDir := some "x/../~y" }

def cliAppd : Opts := { appDataDir := some "/tmp/pkt" }

def mW3 : Config := mergedOf idWorld cliAppd

def cfgW3 : Config := finalCfgOf idWorld cliAppd


/-! # Part 2 — theorems -/

theorem Res.bind_eq_ok {α β : Type} {x : Res α} {f : α → Res β} {b : β} :
    Res.bind x f = .ok b ↔ ∃ a, x = .ok a ∧ f a = .ok b := by
  cases x <;> simp [Res.bind]

/-- A layer's effect, per field: a supplied option overwrites, an absent
one keeps the previous value. -/
theorem getField_applyOpts (c : Config) (o : Opts) (f : CfgField) :
    getField (applyOpts c o) f = (optField o f).getD (getField c f) := by
  cases f with
  | fConfigFile => cases h : o.configFile <;> simp [getField, optField, applyOpts, applyES, setExplicitString, h]
  | fShowVersion => cases h : o.showVersion <;> simp [getField, optField, applyOpts, applyES, setExplicitString, h]
  | fCreate => cases h : o.create <;> simp [getField, optField, applyOpts, applyES, setExplicitString, h]
  | fCreateTemp => cases h : o.createTemp <;> simp [getField, optField, applyOpts, applyES, setExplicitString, h]
  | fAppDataDir => cases h : o.appDataDir <;> simp [getField, optField, applyOpts, applyES, setExplicitString, h]
  | fWallet => cases h : o.wallet <;> simp [getField, optField, applyOpts, applyES, setExplicitString, h]
  | fTestNet3 => cases h : o.testNet3 <;> simp [getField, optField, applyOpts, applyES, setExplicitString, h]
  | fPktTestNet => cases h : o.pktTestNet <;> simp [getField, optField, applyOpts, applyES, setExplicitString, h]
  | fBtcMainNet => cases h : o.btcMainNet <;> simp [getField, optField, applyOpts, applyES, setExplicitString, h]
  | fPktMainNet => cases h : o.pktMainNet <;> simp [getField, optField, applyOpts, applyES, setExplicitString, h]
  | fSimNet => cases h : o.simNet <;> simp [getField, optField, applyOpts, applyES, setExplicitString, h]
  | fNoInitialLoad => cases h : o.noInitialLoad <;> simp [getField, optField, applyOpts, applyES, setExplicitString, h]
  | fDebugLevel => cases h : o.debugLevel <;> simp [getField, optField, applyOpts, applyES, setExplicitString, h]
  | fLogDir => cases h : o.logDir <;> simp [getField, optField, applyOpts, applyES, setExplicitString, h]
  | fRPCConnect => cases h : o.rpcConnect <;> simp [getField, optField, applyOpts, applyES, setExplicitString, h]
  | fCAFile => cases h : o.caFile <;> simp [getField, optField, applyOpts, applyES, setExplicitString, h]
  | fClientTLS => cases h : o.clientTLS <;> simp [getField, optField, applyOpts, applyES, setExplicitString, h]
  | fBtcdUsername => cases h : o.btcdUsername <;> simp [getField, optField, applyOpts, applyES, setExplicitString, h]
  | fBtcdPassword => cases h : o.btcdPassword <;> simp [getField, optField, applyOpts, applyES, setExplicitString, h]
  | fUseRPC => cases h : o.useRPC <;> simp [getField, optField, applyOpts, applyES, setExplicitString, h]
  | fRPCCert => cases h : o.rpcCert <;> simp [getField, optField, applyOpts, applyES, setExplicitString, h]
  | fRPCKey => cases h : o.rpcKey <;> simp [getField, optField, applyOpts, applyES, setExplicitString, h]
  | fLegacyRPCListeners => cases h : o.legacyRPCListeners <;> simp [getField, optField, applyOpts, applyES, setExplicitString, h]
  | fUsername => cases h : o.username <;> simp [getField, optField, applyOpts, applyES, setExplicitString, h]
  | fPassword => cases h : o.password <;> simp [getField, optField, applyOpts, applyES, setExplicitString, h]
  | fOldUsername => cases h : o.oldUsername <;> simp [getField, optField, applyOpts, applyES, setExplicitString, h]
  | fOldPassword => cases h : o.oldPassword <;> simp [getField, optField, applyOpts, applyES, setExplicitString, h]
  | fExperimentalRPCListeners => cases h : o.experimentalRPCListeners <;> simp [getField, optField, applyOpts, applyES, setExplicitString, h]
  | fDataDir => cases h : o.dataDir <;> simp [getField, optField, applyOpts, applyES, setExplicitString, h]

theorem m2Of_spec (w : World) (m : Config) :
    ∃ a k t, m2Of w m = { m with appDataDir := a, rpcKey := k, rpcCert := t } := by
  unfold m2Of checkDeprecatedDataDir rederivePaths
  split <;> split <;> exact ⟨_, _, _, rfl⟩

theorem rpcClientStage_spec {w : World} {net : NetParams} {c c' : Config}
    (h : rpcClientStage w net c = .ok c') :
    (∃ rc ca, c' = { c with rpcConnect := rc, caFile := ca }) ∧
    (c.useRPC = false → c' = c) := by
  unfold rpcClientStage at h
  split at h
  · cases h
    refine ⟨⟨c.rpcConnect, c.caFile, rfl⟩, fun _ => rfl⟩
  · rename_i hu
    refine ⟨?_, fun hfalse => absurd hfalse (by simpa using hu)⟩
    dsimp only at h
    repeat' split at h
    all_goals first
      | (cases h; exact ⟨_, _, rfl⟩)
      | cases h

theorem listenerStage_spec {w : World} {net : NetParams} {c c' : Config}
    (h : listenerStage w net c = .ok c') :
    ∃ lg ex, c' = { c with legacyRPCListeners := lg,
                           experimentalRPCListeners := ex } := by
  unfold listenerStage at h
  split at h
  · split at h
    · cases h
    · cases h; exact ⟨_, _, rfl⟩
  · cases h; exact ⟨_, _, rfl⟩

theorem credStage_spec (c : Config) :
    ∃ u p bu bp, credStage c =
      { c with username := u, password := p,
               btcdUsername := bu, btcdPassword := bp } := by
  unfold credStage
  dsimp only
  split <;> split <;> split <;> split <;> exact ⟨_, _, _, _, rfl⟩

theorem credStage_username (c : Config) :
    (credStage c).username = if c.username = "" then c.oldUsername else c.username := by
  unfold credStage
  dsimp only
  split <;> split <;> split <;> split <;> simp_all

theorem credStage_password (c : Config) :
    (credStage c).password = if c.password = "" then c.oldPassword else c.password := by
  unfold credStage
  dsimp only
  split <;> split <;> split <;> split <;> simp_all

theorem credStage_btcdUsername (c : Config) :
    (credStage c).btcdUsername =
      if c.btcdUsername = "" then (credStage c).username else c.btcdUsername := by
  unfold credStage
  dsimp only
  split <;> split <;> split <;> split <;> simp_all

theorem credStage_btcdPassword (c : Config) :
    (credStage c).btcdPassword =
      if c.btcdPassword = "" then (credStage c).password else c.btcdPassword := by
  unfold credStage
  dsimp only
  split <;> split <;> split <;> split <;> simp_all

theorem networkStage_ok {c : Config} {net : NetParams}
    (h : networkStage c = .ok net) : numNets c ≤ 1 ∧ net = selectNet c := by
  unfold networkStage at h
  split at h
  · cases h
  · cases h; exact ⟨by omega, rfl⟩

/-! Projection lemmas for the pure stages. -/

theorem credStage_rpcKey (c : Config) : (credStage c).rpcKey = c.rpcKey := by
  unfold credStage; dsimp only; split <;> split <;> split <;> split <;> rfl

theorem credStage_rpcCert (c : Config) : (credStage c).rpcCert = c.rpcCert := by
  unfold credStage; dsimp only; split <;> split <;> split <;> split <;> rfl

theorem credStage_appDataDir (c : Config) : (credStage c).appDataDir = c.appDataDir := by
  unfold credStage; dsimp only; split <;> split <;> split <;> split <;> rfl

theorem credStage_rpcConnect (c : Config) : (credStage c).rpcConnect = c.rpcConnect := by
  unfold credStage; dsimp only; split <;> split <;> split <;> split <;> rfl

theorem credStage_caFile (c : Config) : (credStage c).caFile = c.caFile := by
  unfold credStage; dsimp only; split <;> split <;> split <;> split <;> rfl

theorem credStage_numNets (c : Config) : numNets (credStage c) = numNets c := by
  unfold credStage; dsimp only; split <;> split <;> split <;> split <;> rfl

theorem expandStage_rpcKey (w : World) (c : Config) :
    (expandStage w c).rpcKey =
      ⟨cleanAndExpandPath w c.rpcKey.value, c.rpcKey.explicitlySet⟩ := rfl

theorem expandStage_rpcCert (w : World) (c : Config) :
    (expandStage w c).rpcCert =
      ⟨cleanAndExpandPath w c.rpcCert.value, c.rpcCert.explicitlySet⟩ := rfl

theorem expandStage_caFile (w : World) (c : Config) :
    (expandStage w c).caFile =
      ⟨cleanAndExpandPath w c.caFile.value, c.caFile.explicitlySet⟩ := rfl

/-- Field-preservation of a successful RPC-client stage, plus full
preservation when `--userpc` is off. -/
theorem rpcClientStage_frame {w : World} {net : NetParams} {c c' : Config}
    (h : rpcClientStage w net c = .ok c') :
    c'.rpcKey = c.rpcKey ∧ c'.rpcCert = c.rpcCert ∧
    c'.appDataDir = c.appDataDir ∧ c'.username = c.username ∧
    c'.password = c.password ∧ c'.oldUsername = c.oldUsername ∧
    c'.oldPassword = c.oldPassword ∧ c'.btcdUsername = c.btcdUsername ∧
    c'.btcdPassword = c.btcdPassword ∧ numNets c' = numNets c ∧
    c'.useRPC = c.useRPC ∧
    (c.useRPC = false → c'.rpcConnect = c.rpcConnect ∧ c'.caFile = c.caFile) := by
  obtain ⟨⟨rc, ca, rfl⟩, hid⟩ := rpcClientStage_spec h
  refine ⟨rfl, rfl, rfl, rfl, rfl, rfl, rfl, rfl, rfl, rfl, rfl, fun hu => ?_⟩
  have hc := hid hu
  exact ⟨congrArg Config.rpcConnect hc, congrArg Config.caFile hc⟩

/-- Field-preservation of a successful listener stage. -/
theorem listenerStage_frame {w : World} {net : NetParams} {c c' : Config}
    (h : listenerStage w net c = .ok c') :
    c'.rpcKey = c.rpcKey ∧ c'.rpcCert = c.rpcCert ∧
    c'.appDataDir = c.appDataDir ∧ c'.username = c.username ∧
    c'.password = c.password ∧ c'.oldUsername = c.oldUsername ∧
    c'.oldPassword = c.oldPassword ∧ c'.btcdUsername = c.btcdUsername ∧
    c'.btcdPassword = c.btcdPassword ∧ numNets c' = numNets c ∧
    c'.useRPC = c.useRPC ∧ c'.rpcConnect = c.rpcConnect ∧
    c'.caFile = c.caFile := by
  obtain ⟨lg, ex, rfl⟩ := listenerStage_spec h
  exact ⟨rfl, rfl, rfl, rfl, rfl, rfl, rfl, rfl, rfl, rfl, rfl, rfl, rfl⟩

/-- Master inversion lemma for a successful post-merge run: how every
field the claims are concerned with, in the final configuration, is
determined by the configuration `m2Of w m` that entered the network
selector. -/
theorem postMerge_ok_master {w : World} {m cfg : Config} {d : BootstrapDecision}
    (h : postMerge w m = .ok (cfg, d)) :
    numNets (m2Of w m) ≤ 1 ∧
    numNets cfg = numNets (m2Of w m) ∧
    cfg.appDataDir = (m2Of w m).appDataDir ∧
    cfg.rpcKey = ⟨cleanAndExpandPath w (m2Of w m).rpcKey.value,
                  (m2Of w m).rpcKey.explicitlySet⟩ ∧
    cfg.rpcCert = ⟨cleanAndExpandPath w (m2Of w m).rpcCert.value,
                   (m2Of w m).rpcCert.explicitlySet⟩ ∧
    cfg.username = (if (m2Of w m).username = "" then (m2Of w m).oldUsername
                    else (m2Of w m).username) ∧
    cfg.password = (if (m2Of w m).password = "" then (m2Of w m).oldPassword
                    else (m2Of w m).password) ∧
    cfg.btcdUsername = (if (m2Of w m).btcdUsername = "" then cfg.username
                        else (m2Of w m).btcdUsername) ∧
    cfg.btcdPassword = (if (m2Of w m).btcdPassword = "" then cfg.password
                        else (m2Of w m).btcdPassword) ∧
    ((m2Of w m).useRPC = false →
       cfg.rpcConnect = (m2Of w m).rpcConnect ∧
       cfg.caFile = ⟨cleanAndExpandPath w (m2Of w m).caFile.value,
                     (m2Of w m).caFile.explicitlySet⟩) ∧
    bootstrapStage w (selectNet (m2Of w m))
      (logDirStage w (selectNet (m2Of w m)) (m2Of w m)) = .ok d := by
  unfold postMerge at h
  dsimp only at h
  rw [Res.bind_eq_ok] at h; obtain ⟨net, hnet, h⟩ := h
  rw [Res.bind_eq_ok] at h; obtain ⟨u1, hlog, h⟩ := h
  rw [Res.bind_eq_ok] at h; obtain ⟨u2, htmp, h⟩ := h
  rw [Res.bind_eq_ok] at h; obtain ⟨dec, hboot, h⟩ := h
  rw [Res.bind_eq_ok] at h; obtain ⟨m4, hrpc, h⟩ := h
  rw [Res.bind_eq_ok] at h; obtain ⟨m5, hlist, h⟩ := h
  rw [Res.bind_eq_ok] at h; obtain ⟨u3, hconf, h⟩ := h
  have hcfg : credStage (expandStage w m5) = cfg := by
    injection h with hp
    exact congrArg Prod.fst hp
  have hd : dec = d := by
    injection h with hp
    exact congrArg Prod.snd hp
  obtain ⟨hnets, hsel⟩ := networkStage_ok hnet
  obtain ⟨k4, t4, a4, un4, pw4, ou4, op4, bu4, bp4, nn4, ur4, cond4⟩ :=
    rpcClientStage_frame hrpc
  obtain ⟨k5, t5, a5, un5, pw5, ou5, op5, bu5, bp5, nn5, ur5, rc5, ca5⟩ :=
    listenerStage_frame hlist
  subst hcfg
  have hm2 : logDirStage w net (rederivePaths w (checkDeprecatedDataDir m)) =
      logDirStage w net (m2Of w m) := rfl
  rw [hm2] at k4 t4 a4 un4 pw4 ou4 op4 bu4 bp4 nn4 ur4 cond4
  have lk : (logDirStage w net (m2Of w m)).rpcKey = (m2Of w m).rpcKey := rfl
  have lt : (logDirStage w net (m2Of w m)).rpcCert = (m2Of w m).rpcCert := rfl
  have la : (logDirStage w net (m2Of w m)).appDataDir = (m2Of w m).appDataDir := rfl
  have lun : (logDirStage w net (m2Of w m)).username = (m2Of w m).username := rfl
  have lpw : (logDirStage w net (m2Of w m)).password = (m2Of w m).password := rfl
  have lou : (logDirStage w net (m2Of w m)).oldUsername = (m2Of w m).oldUsername := rfl
  have lop : (logDirStage w net (m2Of w m)).oldPassword = (m2Of w m).oldPassword := rfl
  have lbu : (logDirStage w net (m2Of w m)).btcdUsername = (m2Of w m).btcdUsername := rfl
  have lbp : (logDirStage w net (m2Of w m)).btcdPassword = (m2Of w m).btcdPassword := rfl
  have lnn : numNets (logDirStage w net (m2Of w m)) = numNets (m2Of w m) := rfl
  have lur : (logDirStage w net (m2Of w m)).useRPC = (m2Of w m).useRPC := rfl
  have lrc : (logDirStage w net (m2Of w m)).rpcConnect = (m2Of w m).rpcConnect := rfl
  have lca : (logDirStage w net (m2Of w m)).caFile = (m2Of w m).caFile := rfl
  refine ⟨hnets, ?_, ?_, ?_, ?_, ?_, ?_, ?_, ?_, ?_, ?_⟩
  · rw [credStage_numNets]
    have : numNets (expandStage w m5) = numNets m5 := rfl
    rw [this, nn5, nn4, lnn]
  · rw [credStage_appDataDir]
    have : (expandStage w m5).appDataDir = m5.appDataDir := rfl
    rw [this, a5, a4, la]
  · rw [credStage_rpcKey, expandStage_rpcKey, k5, k4, lk]
  · rw [credStage_rpcCert, expandStage_rpcCert, t5, t4, lt]
  · rw [credStage_username]
    have eu : (expandStage w m5).username = (m2Of w m).username := by
      show m5.username = _
      rw [un5, un4, lun]
    have eo : (expandStage w m5).oldUsername = (m2Of w m).oldUsername := by
      show m5.oldUsername = _
      rw [ou5, ou4, lou]
    rw [eu, eo]
  · rw [credStage_password]
    have eu : (expandStage w m5).password = (m2Of w m).password := by
      show m5.password = _
      rw [pw5, pw4, lpw]
    have eo : (expandStage w m5).oldPassword = (m2Of w m).oldPassword := by
      show m5.oldPassword = _
      rw [op5, op4, lop]
    rw [eu, eo]
  · rw [credStage_btcdUsername]
    have eb : (expandStage w m5).btcdUsername = (m2Of w m).btcdUsername := by
      show m5.btcdUsername = _
      rw [bu5, bu4, lbu]
    rw [eb]
  · rw [credStage_btcdPassword]
    have eb : (expandStage w m5).btcdPassword = (m2Of w m).btcdPassword := by
      show m5.btcdPassword = _
      rw [bp5, bp4, lbp]
    rw [eb]
  · intro hu
    have hu3 : (logDirStage w net (m2Of w m)).useRPC = false := by rw [lur, hu]
    obtain ⟨hrc, hca⟩ := cond4 hu3
    constructor
    · rw [credStage_rpcConnect]
      have : (expandStage w m5).rpcConnect = m5.rpcConnect := rfl
      rw [this, rc5, hrc, lrc]
    · rw [credStage_caFile, expandStage_caFile, ca5, hca, lca]
  · have hsel2 : net = selectNet (m2Of w m) := hsel
    rw [← hsel2, ← hd]
    exact hboot

/-- Fields untouched by the deprecated-alias copy and path
re-derivation. -/
theorem m2Of_fields (w : World) (m : Config) :
    (m2Of w m).create = m.create ∧ (m2Of w m).createTemp = m.createTemp ∧
    (m2Of w m).simNet = m.simNet ∧ (m2Of w m).testNet3 = m.testNet3 ∧
    (m2Of w m).pktTestNet = m.pktTestNet ∧ (m2Of w m).pktMainNet = m.pktMainNet ∧
    (m2Of w m).btcMainNet = m.btcMainNet ∧ (m2Of w m).noInitialLoad = m.noInitialLoad ∧
    (m2Of w m).debugLevel = m.debugLevel ∧ (m2Of w m).wallet = m.wallet ∧
    (m2Of w m).dataDir = m.dataDir ∧
    (m2Of w m).username = m.username ∧ (m2Of w m).password = m.password ∧
    (m2Of w m).oldUsername = m.oldUsername ∧ (m2Of w m).oldPassword = m.oldPassword ∧
    (m2Of w m).btcdUsername = m.btcdUsername ∧ (m2Of w m).btcdPassword = m.btcdPassword ∧
    (m2Of w m).useRPC = m.useRPC ∧ (m2Of w m).rpcConnect = m.rpcConnect ∧
    (m2Of w m).caFile = m.caFile ∧ numNets (m2Of w m) = numNets m ∧
    (m2Of w m).legacyRPCListeners = m.legacyRPCListeners ∧
    (m2Of w m).experimentalRPCListeners = m.experimentalRPCListeners := by
  obtain ⟨a, k, t, he⟩ := m2Of_spec w m
  rw [he]
  exact ⟨rfl, rfl, rfl, rfl, rfl, rfl, rfl, rfl, rfl, rfl, rfl, rfl, rfl, rfl,
         rfl, rfl, rfl, rfl, rfl, rfl, rfl, rfl, rfl⟩

/-- The explicit flags of the tracked directory and RPC path options are
preserved by the alias copy and the re-derivation. -/
theorem m2Of_explicitFlags (w : World) (m : Config) :
    (m2Of w m).appDataDir.explicitlySet = m.appDataDir.explicitlySet ∧
    (m2Of w m).rpcKey.explicitlySet = m.rpcKey.explicitlySet ∧
    (m2Of w m).rpcCert.explicitlySet = m.rpcCert.explicitlySet := by
  unfold m2Of checkDeprecatedDataDir rederivePaths
  split <;> split <;>
    refine ⟨rfl, ?_, ?_⟩ <;> dsimp only <;> split <;> rfl

theorem seedStage_ok_eq {w : World} {pre c : Config}
    (h : seedStage w pre = .ok c) : c = seededDefaultCfg w pre := by
  unfold seedStage at h
  unfold seededDefaultCfg
  by_cases hc : pre.username ≠ "" ∧ pre.password ≠ ""
  · rw [if_pos hc] at h ⊢; cases h; rfl
  · rw [if_neg hc] at h ⊢
    cases hrp : w.readUserPass with
    | error e =>
        rw [hrp] at h
        dsimp only at h
        cases h
    | ok l =>
        rw [hrp] at h
        dsimp only at h ⊢
        by_cases hl : 2 ≤ l.length
        · rw [if_pos hl] at h ⊢; cases h; rfl
        · rw [if_neg hl] at h ⊢; cases h; rfl

/-- Inversion of a successful merge phase. -/
theorem mergePhase_ok {w : World} {cli : Opts} {m : Config}
    (h : mergePhase w cli = .ok m) :
    ∃ fileOpts,
      w.parseIniFile (resolveConfigFilePath w (applyOpts defaultCfg cli)) ≠
        IniFileRes.otherError ∧
      m = applyOpts (applyOpts (seededDefaultCfg w (applyOpts defaultCfg cli))
            fileOpts) cli ∧
      (∀ o, w.parseIniFile (resolveConfigFilePath w (applyOpts defaultCfg cli)) =
          .ok o → fileOpts = o) := by
  unfold mergePhase at h
  dsimp only at h
  split at h
  · cases h
  · rw [Res.bind_eq_ok] at h; obtain ⟨seeded, hseed, h⟩ := h
    rw [Res.bind_eq_ok] at h; obtain ⟨afterFile, hf, h⟩ := h
    cases h
    have hs := seedStage_ok_eq hseed
    subst hs
    unfold fileStage at hf
    cases hini : w.parseIniFile
        (resolveConfigFilePath w (applyOpts defaultCfg cli)) with
    | ok o =>
        rw [hini] at hf
        dsimp only at hf
        cases hf
        refine ⟨o, ?_, rfl, ?_⟩
        · intro hcon; cases hcon
        · intro o2 ho2; cases ho2; rfl
    | pathError =>
        rw [hini] at hf
        dsimp only at hf
        cases hf
        refine ⟨emptyOpts, ?_, rfl, ?_⟩
        · intro hcon; cases hcon
        · intro o2 ho2; cases ho2
    | otherError =>
        rw [hini] at hf
        dsimp only at hf
        cases hf

/-! ## Claim C1 — three-way precedence -/

/-- **C1, counterexample.**  The claim says an option supplied in no
layer keeps its compiled-in default.  With an empty command line and an
empty config file but a readable sibling pktd.conf, resolution succeeds
and the final `pktdusername` is the seeded `"alice"`, not its
compiled-in default `""` (config.go:267-281 runs before the file layer). -/
theorem C1_counterexample :
    resolutionOk seedWorld emptyOpts = true ∧
    optField emptyOpts .fBtcdUsername = none ∧
    seedWorld.parseIniFile
        (resolveConfigFilePath seedWorld (applyOpts defaultCfg emptyOpts)) =
      .ok emptyOpts ∧
    defaultCfg.btcdUsername = "" ∧
    (mergedOf seedWorld emptyOpts).btcdUsername = "alice" := by
  decide

/-- **C1 (amended).**  For every modelled option, the merged value is the
CLI layer's value when supplied, else the config-file layer's value when
supplied, else the baseline — where the baseline is the compiled-in
default for every option except the daemon username/password, which the
sibling pktd.conf may have seeded when the CLI pre-parse did not supply
both `rpcuser` and `rpcpass`. -/
theorem cli_file_default_precedence (w : World) (cli fileOpts : Opts) (m : Config)
    (hfile : w.parseIniFile (resolveConfigFilePath w (applyOpts defaultCfg cli)) =
      .ok fileOpts)
    (hok : mergePhase w cli = .ok m) (f : CfgField) :
    getField m f =
      (optField cli f).getD ((optField fileOpts f).getD
        (getField (seededDefaultCfg w (applyOpts defaultCfg cli)) f)) ∧
    (f ≠ .fBtcdUsername → f ≠ .fBtcdPassword →
      getField (seededDefaultCfg w (applyOpts defaultCfg cli)) f =
        getField defaultCfg f) := by
  obtain ⟨fo, hne, hm, huniq⟩ := mergePhase_ok hok
  have hfo : fo = fileOpts := huniq fileOpts hfile
  subst hfo
  constructor
  · rw [hm, getField_applyOpts, getField_applyOpts]
  · intro h1 h2
    unfold seededDefaultCfg
    split
    · rfl
    · split
      · rfl
      · split
        · cases f <;> simp_all [getField]
        · rfl

/-- Witness for `cli_file_default_precedence` at a concrete input. -/
theorem cli_file_default_precedence_witness :
    getField mW1 .fDebugLevel =
      (optField emptyOpts .fDebugLevel).getD
        ((optField emptyOpts .fDebugLevel).getD
          (getField (seededDefaultCfg seedWorld (applyOpts defaultCfg emptyOpts))
            .fDebugLevel)) ∧
    (CfgField.fDebugLevel ≠ CfgField.fBtcdUsername →
      CfgField.fDebugLevel ≠ CfgField.fBtcdPassword →
      getField (seededDefaultCfg seedWorld (applyOpts defaultCfg emptyOpts))
          .fDebugLevel =
        getField defaultCfg .fDebugLevel) :=
  cli_file_default_precedence seedWorld emptyOpts emptyOpts mW1 rfl rfl .fDebugLevel

/-! ## Claim C2 — network-selection exclusivity -/

theorem m2Of_numNets (w : World) (m : Config) :
    numNets (m2Of w m) = numNets m := by
  obtain ⟨a, k, t, he⟩ := m2Of_spec w m
  rw [he]
  rfl

/-- **C2, counterexample.**  The claim says that after successful
resolution exactly one of the five network-selection flags is true.  With
no flag supplied in any layer, resolution succeeds with zero of them set
(config.go:330-360 rejects only `numNets > 1`; zero is accepted and the
compiled-in default network profile stays active). -/
theorem C2_counterexample : netCountOf idWorld emptyOpts = some 0 := by decide

/-- **C2 (amended).**  After successful resolution at most one of the
five network-selection flags is true (zero when none was requested), and
any merged configuration with two or more of them set is rejected with
the same single fatal configuration error, irrespective of which flags
they are (and hence of their order, the merge being order-insensitive). -/
theorem network_flags_at_most_one (w : World) (cli : Opts) (m : Config)
    (hm : mergePhase w cli = .ok m) :
    (∀ cfg d, loadConfigModel w cli = .ok (cfg, d) → numNets cfg ≤ 1) ∧
    (2 ≤ numNets m → loadConfigModel w cli = .fatal .multipleNetworks) := by
  constructor
  · intro cfg d hrun
    unfold loadConfigModel at hrun
    rw [Res.bind_eq_ok] at hrun
    obtain ⟨m0, hm0, hpost⟩ := hrun
    rw [hm] at hm0
    cases hm0
    obtain ⟨h1, h2, -⟩ := postMerge_ok_master hpost
    rw [h2]
    exact h1
  · intro h2
    unfold loadConfigModel
    rw [hm]
    show postMerge w m = _
    unfold postMerge
    dsimp only
    have hbad : numNets (rederivePaths w (checkDeprecatedDataDir m)) > 1 := by
      have hq : numNets (m2Of w m) = numNets m := m2Of_numNets w m
      show numNets (m2Of w m) > 1
      omega
    have hns : networkStage (rederivePaths w (checkDeprecatedDataDir m)) =
        .fatal .multipleNetworks := by
      unfold networkStage
      rw [if_pos hbad]
    rw [hns]
    rfl

/-- Witness for `network_flags_at_most_one` at a concrete input with two
network flags. -/
theorem network_flags_at_most_one_witness :
    2 ≤ numNets mW2 ∧
    loadConfigModel idWorld cliTwoNets = .fatal .multipleNetworks :=
  ⟨by decide, (network_flags_at_most_one idWorld cliTwoNets mW2 rfl).2 (by decide)⟩

/-! ## Claim C4 — create/createtemp mutual exclusion -/

/-- **C4, counterexample.**  The claim says any input with both `create`
and `createtemp` is rejected with the fatal mutual-exclusion error,
independent of whether an explicit data directory was given.  But with
both flags set, simnet selected and *no* explicit data directory, the
process exits cleanly at the data-directory diagnostic (config.go:383-387)
before the mutual-exclusion check (config.go:401-406) is ever reached. -/
theorem C4_counterexample :
    loadConfigModel idWorld cliBothCreate = .exited .tempNoDataDir := by decide

/-- **C4 (amended).**  When both `create` and `createtemp` are merged in,
an explicit data directory was given and the simulation network (alone)
is selected — so that the two earlier `createtemp` exits do not fire —
resolution is rejected with the fatal mutual-exclusion error, before any
filesystem access. -/
theorem create_createtemp_rejected (w : World) (cli : Opts) (m : Config)
    (hm : mergePhase w cli = .ok m)
    (hc : m.create = true) (hct : m.createTemp = true)
    (hdd : m.appDataDir.explicitlySet = true ∨ m.dataDir.explicitlySet = true)
    (hsim : m.simNet = true) (hn1 : m.testNet3 = false) (hn2 : m.pktTestNet = false)
    (hn3 : m.pktMainNet = false) (hn4 : m.btcMainNet = false)
    (hlog : w.setLogLevelsOk m.debugLevel = true) :
    loadConfigModel w cli = .fatal .createTempAndCreate := by
  obtain ⟨f1, f2, f3, f4, f5, f6, f7, f8, f9, f10, f11, f12, f13, f14, f15, f16,
          f17, f18, f19, f20, f21, f22, f23⟩ := m2Of_fields w m
  obtain ⟨g1, g2, g3⟩ := m2Of_explicitFlags w m
  unfold loadConfigModel
  rw [hm]
  show postMerge w m = _
  unfold postMerge
  dsimp only
  have em2 : rederivePaths w (checkDeprecatedDataDir m) = m2Of w m := rfl
  rw [em2]
  have hns : networkStage (m2Of w m) = .ok (selectNet (m2Of w m)) := by
    unfold networkStage
    rw [if_neg]
    rw [f21]
    simp [numNets, hn1, hn2, hn3, hn4, hsim]
  rw [hns]
  simp only [Res.bind]
  have hlv : logLevelStage w
      (logDirStage w (selectNet (m2Of w m)) (m2Of w m)) = .ok () := by
    unfold logLevelStage
    have e9 : (logDirStage w (selectNet (m2Of w m)) (m2Of w m)).debugLevel =
        m.debugLevel := f9
    rw [e9, if_pos hlog]
  rw [hlv]
  simp only [Res.bind]
  have htc : tempExitChecks
      (logDirStage w (selectNet (m2Of w m)) (m2Of w m)) = .ok () := by
    unfold tempExitChecks
    rcases hdd with h | h
    · simp [show (logDirStage w (selectNet (m2Of w m)) (m2Of w m)).appDataDir.explicitlySet
              = true from g1.trans h,
            show (logDirStage w (selectNet (m2Of w m)) (m2Of w m)).simNet = true from
              f3.trans hsim]
    · simp [show (logDirStage w (selectNet (m2Of w m)) (m2Of w m)).dataDir.explicitlySet
              = true from (congrArg ExplicitString.explicitlySet f11).trans h,
            show (logDirStage w (selectNet (m2Of w m)) (m2Of w m)).simNet = true from
              f3.trans hsim]
  rw [htc]
  simp only [Res.bind]
  have hbs : bootstrapStage w (selectNet (m2Of w m))
      (logDirStage w (selectNet (m2Of w m)) (m2Of w m)) = .fatal .createTempAndCreate := by
    unfold bootstrapStage
    rw [if_pos]
    exact ⟨f2.trans hct, f1.trans hc⟩
  rw [hbs]

/-- Witness for `create_createtemp_rejected` at a concrete input. -/
theorem create_createtemp_rejected_witness :
    (mW4.create = true ∧ mW4.createTemp = true ∧
      mW4.dataDir.explicitlySet = true ∧ mW4.simNet = true) ∧
    loadConfigModel idWorld cliBothWithDir = .fatal .createTempAndCreate :=
  ⟨by decide,
   create_createtemp_rejected idWorld cliBothWithDir mW4 rfl (by decide) (by decide)
     (Or.inr (by decide)) (by decide) (by decide) (by decide) (by decide) (by decide)
     (by decide)⟩

/-! ## Claim C8 — sibling pktd.conf seeding error handling -/

/-- **C8** (code bug): the claim — and the source's own comment `"file
doesn't exist, whatever"` at config.go:277 — say a missing sibling
pktd.conf is silently ignored.  But config.go:272 inspects `errr` (the
pass-1 parse error, necessarily nil on this path) instead of the read
error `err`; nil never type-asserts to `*os.PathError`, so even a
PathError read failure takes the abort branch `return nil, nil,
er.E(errr)` instead of continuing: with no CLI credentials and an absent
sibling file, resolution aborts rather than proceeding. -/
theorem seed_pathError_aborts :
    readUserPassIsPathError pathErrWorld = true ∧
    (applyOpts defaultCfg emptyOpts).username = "" ∧
    loadConfigModel pathErrWorld emptyOpts = .fatal .seedReadAbort := by decide

/-! ## Claim C7 — cross-server listener conflicts -/

theorem listHas_iff {a : String} {l : List String} :
    listHas a l = true ↔ a ∈ l := by
  induction l with
  | nil => simp [listHas]
  | cons b rest ih => simp [listHas, ih]

theorem findShared_some {legacy lst : List String} {a : String}
    (h : findShared legacy lst = some a) : a ∈ lst ∧ a ∈ legacy := by
  induction lst with
  | nil => cases h
  | cons b rest ih =>
    unfold findShared at h
    split at h
    · rename_i hb
      cases h
      exact ⟨List.mem_cons_self _ _, listHas_iff.mp hb⟩
    · obtain ⟨h1, h2⟩ := ih h
      exact ⟨List.mem_cons_of_mem _ h1, h2⟩

theorem findShared_none {legacy lst : List String}
    (h : findShared legacy lst = none) : ∀ a, a ∈ lst → a ∉ legacy := by
  induction lst with
  | nil => intro a ha; cases ha
  | cons b rest ih =>
    unfold findShared at h
    split at h
    · cases h
    · rename_i hb
      intro a ha
      rcases List.mem_cons.mp ha with rfl | ha2
      · intro hmem
        exact hb (listHas_iff.mpr hmem)
      · exact ih h a ha2

/-- **C7.**  After normalization, when the legacy and experimental
listener lists share an address, the cross-server check fails with a
fatal error carrying a shared address (the error message names it); when
they share no address, the check passes (config.go:564-580). -/
theorem listener_conflict_check (legacy experimental : List String) :
    ((∃ a, a ∈ legacy ∧ a ∈ experimental) →
       ∃ a, a ∈ legacy ∧ a ∈ experimental ∧
         checkListenerConflict legacy experimental = .fatal (.listenerConflict a)) ∧
    ((¬ ∃ a, a ∈ legacy ∧ a ∈ experimental) →
       checkListenerConflict legacy experimental = .ok ()) := by
  constructor
  · rintro ⟨a, hl, he⟩
    unfold checkListenerConflict
    have hne1 : legacy.length > 0 := List.length_pos.mpr (List.ne_nil_of_mem hl)
    have hne2 : experimental.length > 0 := List.length_pos.mpr (List.ne_nil_of_mem he)
    rw [if_pos ⟨hne1, hne2⟩]
    cases hfind : findShared legacy experimental with
    | some b =>
        obtain ⟨hb1, hb2⟩ := findShared_some hfind
        exact ⟨b, hb2, hb1, rfl⟩
    | none =>
        exact absurd hl (findShared_none hfind a he)
  · intro hno
    unfold checkListenerConflict
    split
    · cases hfind : findShared legacy experimental with
      | some b =>
          obtain ⟨hb1, hb2⟩ := findShared_some hfind
          exact absurd ⟨b, hb2, hb1⟩ hno
      | none => rfl
    · rfl

/-- Witness for `listener_conflict_check`: the spec's own scenario, the
address `127.0.0.1:8332` appearing in both lists. -/
theorem listener_conflict_check_witness :
    (∃ a, a ∈ ["127.0.0.1:8332"] ∧ a ∈ ["127.0.0.1:8332", "[::1]:8332"] ∧
       checkListenerConflict ["127.0.0.1:8332"] ["127.0.0.1:8332", "[::1]:8332"] =
         .fatal (.listenerConflict a)) ∧
    checkListenerConflict ["10.0.0.1:8332"] ["[::1]:8332"] = .ok () :=
  ⟨(listener_conflict_check ["127.0.0.1:8332"] ["127.0.0.1:8332", "[::1]:8332"]).1
     ⟨"127.0.0.1:8332", by decide, by decide⟩,
   (listener_conflict_check ["10.0.0.1:8332"] ["[::1]:8332"]).2 (by decide)⟩

/-! ## Claim C9 — credential fallback chain -/

/-- **C9.**  After successful resolution, the legacy-RPC username
(resp. password) is the canonical `rpcuser` (`rpcpass`) when non-empty
and otherwise the hidden legacy alias `username` (`password`); the
daemon username (resp. password) is the supplied `pktdusername`
(`pktdpassword`) when non-empty and otherwise the resolved client
username (password) (config.go:587-603). -/
theorem credential_fallback (w : World) (cli : Opts) (m cfg : Config)
    (d : BootstrapDecision) (hm : mergePhase w cli = .ok m)
    (hrun : loadConfigModel w cli = .ok (cfg, d)) :
    cfg.username = (if m.username = "" then m.oldUsername else m.username) ∧
    cfg.password = (if m.password = "" then m.oldPassword else m.password) ∧
    cfg.btcdUsername = (if m.btcdUsername = "" then cfg.username
                        else m.btcdUsername) ∧
    cfg.btcdPassword = (if m.btcdPassword = "" then cfg.password
                        else m.btcdPassword) := by
  unfold loadConfigModel at hrun
  rw [Res.bind_eq_ok] at hrun
  obtain ⟨m0, hm0, hpost⟩ := hrun
  rw [hm] at hm0
  cases hm0
  obtain ⟨-, -, -, -, -, hu, hp, hbu, hbp, -, -⟩ := postMerge_ok_master hpost
  obtain ⟨f1, f2, f3, f4, f5, f6, f7, f8, f9, f10, f11, f12, f13, f14, f15, f16,
          f17, f18, f19, f20, f21, f22, f23⟩ := m2Of_fields w m
  rw [f12, f14] at hu
  rw [f13, f15] at hp
  rw [f16] at hbu
  rw [f17] at hbp
  exact ⟨hu, hp, hbu, hbp⟩

/-- Witness for `credential_fallback` at a concrete input. -/
theorem credential_fallback_witness :
    cfgW9.username = (if mW9.username = "" then mW9.oldUsername else mW9.username) ∧
    cfgW9.password = (if mW9.password = "" then mW9.oldPassword else mW9.password) ∧
    cfgW9.btcdUsername = (if mW9.btcdUsername = "" then cfgW9.username
                          else mW9.btcdUsername) ∧
    cfgW9.btcdPassword = (if mW9.btcdPassword = "" then cfgW9.password
                          else mW9.btcdPassword) :=
  credential_fallback idWorld cli9 mW9 cfgW9 .deferLoad rfl rfl

/-! ## Claim C10 — no rpcconnect handling when userpc is off -/

/-- **C10.**  When the merged `userpc` flag is false, the final
`rpcconnect` is exactly the merged (user-supplied, possibly empty)
value — no default host is substituted, no port appended, no
normalization applied — and the CA file undergoes no derivation: its
value is merely the final path expansion of the merged value, its
explicit flag untouched (config.go:479-528 runs its transformations only
in the `userpc` branch). -/
theorem userpc_off_frame (w : World) (cli : Opts) (m cfg : Config)
    (d : BootstrapDecision) (hm : mergePhase w cli = .ok m)
    (hrun : loadConfigModel w cli = .ok (cfg, d)) (hu : m.useRPC = false) :
    cfg.rpcConnect = m.rpcConnect ∧
    cfg.caFile.value = cleanAndExpandPath w m.caFile.value ∧
    cfg.caFile.explicitlySet = m.caFile.explicitlySet := by
  unfold loadConfigModel at hrun
  rw [Res.bind_eq_ok] at hrun
  obtain ⟨m0, hm0, hpost⟩ := hrun
  rw [hm] at hm0
  cases hm0
  obtain ⟨-, -, -, -, -, -, -, -, -, hcond, -⟩ := postMerge_ok_master hpost
  obtain ⟨f1, f2, f3, f4, f5, f6, f7, f8, f9, f10, f11, f12, f13, f14, f15, f16,
          f17, f18, f19, f20, f21, f22, f23⟩ := m2Of_fields w m
  obtain ⟨hrc, hca⟩ := hcond (f18.trans hu)
  rw [f19] at hrc
  refine ⟨hrc, ?_, ?_⟩
  · rw [hca, f20]
  · rw [hca, f20]

/-- Witness for `userpc_off_frame` at a concrete input. -/
theorem userpc_off_frame_witness :
    cfgW10.rpcConnect = mW10.rpcConnect ∧
    cfgW10.caFile.value = cleanAndExpandPath idWorld mW10.caFile.value ∧
    cfgW10.caFile.explicitlySet = mW10.caFile.explicitlySet :=
  userpc_off_frame idWorld emptyOpts mW10 cfgW10 .deferLoad rfl rfl rfl

/-! ## Claims C5 and C6 — wallet bootstrap decisions -/

/-- **C5.**  With `create`, `createtemp` and `noinitialload` all false
and the wallet database file absent (and resolution reaching the
bootstrap stage: at most one network flag, a valid log level, successful
filesystem probes), resolution fails instructing the user to pass
`--create`: with the legacy keystore also absent the error is the
missing-wallet rejection, with the keystore present it is the
legacy-format rejection (config.go:455-471). -/
theorem wallet_missing_rejected (w : World) (cli : Opts) (m : Config)
    (hm : mergePhase w cli = .ok m)
    (hc : m.create = false) (hct : m.createTemp = false)
    (hnl : m.noInitialLoad = false) (hnn : numNets m ≤ 1)
    (hlog : w.setLogLevelsOk m.debugLevel = true)
    (hdb : w.fileExists (dbPathOf w m) = .ok false)
    (hdir : w.checkCreateDir (netDirOf w m) = .ok ()) :
    (w.fileExists (keystorePathOf w m) = .ok false →
       loadConfigModel w cli = .fatal .rejectMissingWallet) ∧
    (w.fileExists (keystorePathOf w m) = .ok true →
       loadConfigModel w cli = .fatal .rejectLegacyWallet) := by
  obtain ⟨f1, f2, f3, f4, f5, f6, f7, f8, f9, f10, f11, f12, f13, f14, f15, f16,
          f17, f18, f19, f20, f21, f22, f23⟩ := m2Of_fields w m
  have hct3 : (logDirStage w (selectNet (m2Of w m)) (m2Of w m)).createTemp = false :=
    f2.trans hct
  have hc3 : (logDirStage w (selectNet (m2Of w m)) (m2Of w m)).create = false :=
    f1.trans hc
  have hnl3 : (logDirStage w (selectNet (m2Of w m)) (m2Of w m)).noInitialLoad = false :=
    f8.trans hnl
  have hw3 : (logDirStage w (selectNet (m2Of w m)) (m2Of w m)).wallet = m.wallet := f10
  have ha3 : (logDirStage w (selectNet (m2Of w m)) (m2Of w m)).appDataDir =
      (m2Of w m).appDataDir := rfl
  have hpre : ∀ e, bootstrapStage w (selectNet (m2Of w m))
      (logDirStage w (selectNet (m2Of w m)) (m2Of w m)) = .fatal e →
      loadConfigModel w cli = .fatal e := by
    intro e hbs
    unfold loadConfigModel
    rw [hm]
    show postMerge w m = _
    unfold postMerge
    dsimp only
    have em2 : rederivePaths w (checkDeprecatedDataDir m) = m2Of w m := rfl
    rw [em2]
    have hns : networkStage (m2Of w m) = .ok (selectNet (m2Of w m)) := by
      unfold networkStage
      rw [if_neg]
      rw [f21]
      omega
    rw [hns]
    simp only [Res.bind]
    have hlv : logLevelStage w
        (logDirStage w (selectNet (m2Of w m)) (m2Of w m)) = .ok () := by
      unfold logLevelStage
      have e9 : (logDirStage w (selectNet (m2Of w m)) (m2Of w m)).debugLevel =
          m.debugLevel := f9
      rw [e9, if_pos hlog]
    rw [hlv]
    simp only [Res.bind]
    have htc : tempExitChecks
        (logDirStage w (selectNet (m2Of w m)) (m2Of w m)) = .ok () := by
      unfold tempExitChecks
      simp [hct3]
    rw [htc]
    simp only [Res.bind]
    rw [hbs]
  have hboot : ∀ ks : Bool, w.fileExists (keystorePathOf w m) = .ok ks →
      bootstrapStage w (selectNet (m2Of w m))
        (logDirStage w (selectNet (m2Of w m)) (m2Of w m)) =
      .fatal (if ks then Fatal.rejectLegacyWallet else Fatal.rejectMissingWallet) := by
    intro ks hks
    unfold bootstrapStage
    dsimp only
    rw [if_neg (by rw [hct3]; simp)]
    rw [ha3, hw3]
    unfold dbPathOf netDirOf at hdb
    rw [hdb]
    dsimp only
    unfold netDirOf at hdir
    rw [hdir]
    dsimp only
    rw [if_neg (by rw [hct3]; simp)]
    rw [if_neg (by rw [hc3]; simp)]
    rw [if_pos (by refine ⟨by simp, ?_⟩; rw [hnl3]; simp)]
    unfold keystorePathOf netDirOf at hks
    rw [hks]
    dsimp only
    cases ks
    · rw [if_pos (by simp)]
      rfl
    · rw [if_neg (by simp)]
      rfl
  constructor
  · intro hks
    exact hpre _ (hboot false hks)
  · intro hks
    exact hpre _ (hboot true hks)

/-- **C6.**  With `createtemp` set (and `create` unset, per the
preceding mutual-exclusion rule), the simulation network selected and an
explicit data directory given: if the wallet database file exists the
bootstrap decision is `loadExisting` (resolution continues, the creation
wizard is not consulted); if it is absent, the temporary-wallet wizard
runs and the decision is `createTemporary`.  The third conjunct ties the
stage to the pipeline: whenever resolution completes, its decision is
exactly the one this stage produced (config.go:420-436). -/
theorem createtemp_decisions (w : World) (cli : Opts) (m : Config)
    (hm : mergePhase w cli = .ok m)
    (hct : m.createTemp = true) (hc : m.create = false)
    (_hdd : m.appDataDir.explicitlySet = true ∨ m.dataDir.explicitlySet = true)
    (_hsim : m.simNet = true)
    (hdir : w.checkCreateDir (netDirOf w m) = .ok ()) :
    (w.fileExists (dbPathOf w m) = .ok true →
       bootstrapStageOf w m = .ok .loadExisting) ∧
    (w.fileExists (dbPathOf w m) = .ok false → w.createSimulationWallet = .ok () →
       bootstrapStageOf w m = .ok .createTemporary) ∧
    (∀ cfg d, loadConfigModel w cli = .ok (cfg, d) →
       bootstrapStageOf w m = .ok d) := by
  obtain ⟨f1, f2, f3, f4, f5, f6, f7, f8, f9, f10, f11, f12, f13, f14, f15, f16,
          f17, f18, f19, f20, f21, f22, f23⟩ := m2Of_fields w m
  have hct3 : (logDirStage w (selectNet (m2Of w m)) (m2Of w m)).createTemp = true :=
    f2.trans hct
  have hc3 : (logDirStage w (selectNet (m2Of w m)) (m2Of w m)).create = false :=
    f1.trans hc
  have hw3 : (logDirStage w (selectNet (m2Of w m)) (m2Of w m)).wallet = m.wallet := f10
  have ha3 : (logDirStage w (selectNet (m2Of w m)) (m2Of w m)).appDataDir =
      (m2Of w m).appDataDir := rfl
  refine ⟨?_, ?_, ?_⟩
  · intro hdb
    unfold bootstrapStageOf bootstrapStage
    dsimp only
    rw [if_neg (by rw [hc3]; simp)]
    rw [ha3, hw3]
    unfold dbPathOf netDirOf at hdb
    rw [hdb]
    dsimp only
    unfold netDirOf at hdir
    rw [hdir]
    dsimp only
    rw [if_pos hct3]
    rw [if_pos rfl]
  · intro hdb hsw
    unfold bootstrapStageOf bootstrapStage
    dsimp only
    rw [if_neg (by rw [hc3]; simp)]
    rw [ha3, hw3]
    unfold dbPathOf netDirOf at hdb
    rw [hdb]
    dsimp only
    unfold netDirOf at hdir
    rw [hdir]
    dsimp only
    rw [if_pos hct3]
    rw [if_neg (by simp)]
    rw [hsw]
  · intro cfg d hrun
    unfold loadConfigModel at hrun
    rw [Res.bind_eq_ok] at hrun
    obtain ⟨m0, hm0, hpost⟩ := hrun
    rw [hm] at hm0
    cases hm0
    obtain ⟨-, -, -, -, -, -, -, -, -, -, hbs⟩ := postMerge_ok_master hpost
    exact hbs

/-- Witness for `wallet_missing_rejected`: both keystore-absent and
keystore-present scenarios at concrete inputs. -/
theorem wallet_missing_rejected_witness :
    loadConfigModel emptyFsWorld emptyOpts = .fatal .rejectMissingWallet ∧
    loadConfigModel legacyFsWorld emptyOpts = .fatal .rejectLegacyWallet :=
  ⟨(wallet_missing_rejected emptyFsWorld emptyOpts (mergedOf emptyFsWorld emptyOpts)
      rfl (by decide) (by decide) (by decide) (by decide) (by decide) (by decide)
      (by decide)).1 (by decide),
   (wallet_missing_rejected legacyFsWorld emptyOpts (mergedOf legacyFsWorld emptyOpts)
      rfl (by decide) (by decide) (by decide) (by decide) (by decide) (by decide)
      (by decide)).2 (by decide)⟩

/-- Witness for `createtemp_decisions`: with the wallet file present the
decision is `loadExisting` (and the completed pipeline carries it); with
the wallet file absent it is `createTemporary`. -/
theorem createtemp_decisions_witness :
    bootstrapStageOf idWorld (mergedOf idWorld cli6) = .ok .loadExisting ∧
    bootstrapStageOf emptyFsWorld (mergedOf emptyFsWorld cli6) = .ok .createTemporary ∧
    finalDecisionOf idWorld cli6 = some .loadExisting :=
  ⟨(createtemp_decisions idWorld cli6 (mergedOf idWorld cli6) rfl (by decide)
      (by decide) (Or.inr (by decide)) (by decide) (by decide)).1 (by decide),
   (createtemp_decisions emptyFsWorld cli6 (mergedOf emptyFsWorld cli6) rfl (by decide)
      (by decide) (Or.inr (by decide)) (by decide) (by decide)).2.1 (by decide) (by decide),
   by decide⟩

/-! ## Claim C3 — appdata-relative re-derivation of rpckey/rpccert -/

/-- **C3, counterexample.**  On `--appdata 'x/../~y'` (rpckey and rpccert
untouched), the resolved appdata is the cleaned `"~y"`, and the claim
would put rpckey at `<appdata>/rpc.key = "~y/rpc.key"` — but the final
path expansion (config.go:585) runs `cleanAndExpandPath` once more over
the re-derived key path and expands the leading `~y`, so the resolved
rpckey is `"/home/y/rpc.key"`, which differs from `<appdata>/rpc.key`. -/
theorem C3_counterexample :
    (mergedOf tildeWorld cliTilde).appDataDir.explicitlySet = true ∧
    (mergedOf tildeWorld cliTilde).rpcKey.explicitlySet = false ∧
    resolutionOk tildeWorld cliTilde = true ∧
    (finalCfgOf tildeWorld cliTilde).appDataDir.value = "~y" ∧
    goJoin "~y" "rpc.key" = "~y/rpc.key" ∧
    (finalCfgOf tildeWorld cliTilde).rpcKey.value = "/home/y/rpc.key" ∧
    "/home/y/rpc.key" ≠ "~y/rpc.key" := by decide

theorem m2Of_rederives {w : World} {m : Config}
    (ha : m.appDataDir.explicitlySet = true) :
    (m2Of w m).appDataDir = ⟨cleanAndExpandPath w m.appDataDir.value, true⟩ ∧
    (m2Of w m).rpcKey =
      (if m.rpcKey.explicitlySet then m.rpcKey
       else ⟨goJoin (cleanAndExpandPath w m.appDataDir.value) "rpc.key",
             m.rpcKey.explicitlySet⟩) ∧
    (m2Of w m).rpcCert =
      (if m.rpcCert.explicitlySet then m.rpcCert
       else ⟨goJoin (cleanAndExpandPath w m.appDataDir.value) "rpc.cert",
             m.rpcCert.explicitlySet⟩) := by
  unfold m2Of checkDeprecatedDataDir
  rw [if_neg (by rw [ha]; simp)]
  unfold rederivePaths
  rw [if_pos ha]
  refine ⟨?_, rfl, rfl⟩
  rw [ha]

theorem m2Of_rpcKey_keepExplicit {w : World} {m : Config}
    (hk : m.rpcKey.explicitlySet = true) : (m2Of w m).rpcKey = m.rpcKey := by
  unfold m2Of checkDeprecatedDataDir rederivePaths
  split <;> split <;> simp [hk]

theorem m2Of_rpcCert_keepExplicit {w : World} {m : Config}
    (hk : m.rpcCert.explicitlySet = true) : (m2Of w m).rpcCert = m.rpcCert := by
  unfold m2Of checkDeprecatedDataDir rederivePaths
  split <;> split <;> simp [hk]

/-- **C3 (amended).**  After a successful run: when appdata was
explicitly set and rpckey (resp. rpccert) was not, the resolved rpckey
(rpccert) equals `<appdata>/rpc.key` (`<appdata>/rpc.cert`) — taken
relative to the resolved appdata — subjected to the final
clean-and-expand pass of config.go:582-585 (which is the identity on
ordinary paths, but not on paths whose cleaned form begins with `~` or
contains environment variables, whence the counterexample); when rpckey
(rpccert) was explicitly set, its resolved value is the final expansion
of the explicitly supplied value, unaffected by any appdata override. -/
theorem appdata_rederives_rpc_paths (w : World) (cli : Opts) (m cfg : Config)
    (d : BootstrapDecision) (hm : mergePhase w cli = .ok m)
    (hrun : loadConfigModel w cli = .ok (cfg, d)) :
    (m.appDataDir.explicitlySet = true → m.rpcKey.explicitlySet = false →
       cfg.rpcKey.value =
         cleanAndExpandPath w (goJoin cfg.appDataDir.value "rpc.key")) ∧
    (m.appDataDir.explicitlySet = true → m.rpcCert.explicitlySet = false →
       cfg.rpcCert.value =
         cleanAndExpandPath w (goJoin cfg.appDataDir.value "rpc.cert")) ∧
    (m.rpcKey.explicitlySet = true →
       cfg.rpcKey.value = cleanAndExpandPath w m.rpcKey.value) ∧
    (m.rpcCert.explicitlySet = true →
       cfg.rpcCert.value = cleanAndExpandPath w m.rpcCert.value) := by
  unfold loadConfigModel at hrun
  rw [Res.bind_eq_ok] at hrun
  obtain ⟨m0, hm0, hpost⟩ := hrun
  rw [hm] at hm0
  cases hm0
  obtain ⟨-, -, hado, hk, ht, -, -, -, -, -, -⟩ := postMerge_ok_master hpost
  refine ⟨?_, ?_, ?_, ?_⟩
  · intro ha hkx
    obtain ⟨ea, ek, et⟩ := m2Of_rederives (w := w) ha
    rw [hk, ek, hado, ea]
    simp [hkx]
  · intro ha htx
    obtain ⟨ea, ek, et⟩ := m2Of_rederives (w := w) ha
    rw [ht, et, hado, ea]
    simp [htx]
  · intro hkx
    rw [hk, m2Of_rpcKey_keepExplicit hkx]
  · intro htx
    rw [ht, m2Of_rpcCert_keepExplicit htx]

/-- Witness for `appdata_rederives_rpc_paths` at a concrete input. -/
theorem appdata_rederives_rpc_paths_witness :
    cfgW3.rpcKey.value =
      cleanAndExpandPath idWorld (goJoin cfgW3.appDataDir.value "rpc.key") ∧
    cfgW3.rpcCert.value =
      cleanAndExpandPath idWorld (goJoin cfgW3.appDataDir.value "rpc.cert") := by
  have h := appdata_rederives_rpc_paths idWorld cliAppd mW3 cfgW3 .deferLoad rfl rfl
  exact ⟨h.1 (by decide) (by decide), h.2.1 (by decide) (by decide)⟩

